import Mathlib

/-!
Shallow embedding of the quality-control masking logic of
`src/nexrad_sample.py` (lines 104-110):

    reflow   = np.less(refl_grid, 20)
    zdrhigh  = np.greater(np.abs(zdr_grid), 2.3)
    rhohvlow = np.less(rhohv_grid, 0.95)
    notweather = np.logical_or(reflow, np.logical_or(zdrhigh, rhohvlow))
    qcrefl_grid = ma.masked_where(notweather, refl_grid)

2-D numpy arrays are modelled as rectangular lists of lists; measurement
values are rationals (the comparisons against the literals 20, 2.3 and
0.95 are order comparisons, faithfully represented over ℚ).  The
elementwise numpy operations `np.less` / `np.greater` / `np.abs` against
a scalar always succeed; the binary `np.logical_or` follows numpy
broadcasting (two dimensions are compatible when they are equal or one
of them is 1), and raises when the shapes are not broadcast-compatible;
`ma.masked_where` demands exactly equal shapes (it raises IndexError on
any mismatch) and returns a masked array holding the original data
together with the boolean mask.
-/

namespace Nexrad

/-- A 2-D grid, row-major: the numpy arrays of the script. -/
abbrev Grid (α : Type) := List (List α)

/-- The structural shape of a grid: the list of its row lengths.
For rectangular arrays (every numpy array is rectangular) this carries
exactly the (ray count, gate count) information. -/
def shapeOf (g : Grid α) : List Nat := g.map List.length

/-- The (rows, cols) pair numpy reports as `.shape` of a 2-D array,
with cols read off the first row. -/
def bshape (g : Grid α) : Nat × Nat := (g.length, (g.headD []).length)

/-- A grid is rectangular when every row has the length of the first row
(always true of a 2-D numpy array). -/
def Rect (g : Grid α) : Prop := ∀ row ∈ g, row.length = (g.headD []).length

/-- Cell access with a default, `g[i][j]`. -/
def cellD (g : Grid α) (d : α) (i j : Nat) : α := (g.getD i []).getD j d

/-- Elementwise map over a grid: the unary numpy ufuncs of the script
(`np.less(_, scalar)`, `np.greater(np.abs _, scalar)`). -/
def gmap (f : α → β) (g : Grid α) : Grid β := g.map (List.map f)

/-- The single error the masking lines can raise: numpy refuses to
combine arrays whose shapes are not broadcast-compatible, and
`ma.masked_where` refuses a condition whose shape differs from that
of the data. -/
inductive NpError where
  | shapeMismatch
deriving DecidableEq

/-- numpy dimension compatibility: equal, or one of the two is 1,
in which case the broadcast dimension is the other. -/
def bdim (a b : Nat) : Option Nat :=
  if a = b then some a else if a = 1 then some b else if b = 1 then some a else none

/-- numpy 2-D shape broadcasting: both dimensions must be compatible. -/
def bcompat (s t : Nat × Nat) : Option (Nat × Nat) :=
  match bdim s.1 t.1, bdim s.2 t.2 with
  | some m, some n => some (m, n)
  | _, _ => none

/-- Stretch a row to length `n`: a length-1 row is replicated
(numpy broadcasting along the gate axis); a row already of length `n`
is kept.  `d` is a dummy default that is never read on the shapes
numpy accepts. -/
def expandRow (d : α) (n : Nat) (row : List α) : List α :=
  if row.length = n then row else List.replicate n (row.headD d)

/-- Stretch a grid to shape (m, n): rows are stretched to length `n`,
and a single row is replicated `m` times (numpy broadcasting along the
ray axis). -/
def expand (d : α) (m n : Nat) (g : Grid α) : Grid α :=
  let g2 := g.map (expandRow d n)
  if g.length = m then g2 else List.replicate m (g2.headD [])

/-- A binary elementwise numpy operation on 2-D arrays: arrays of
identical shape are combined cell by cell; otherwise numpy broadcasting
applies, and non-broadcast-compatible shapes raise.  (On rectangular
arrays of identical shape the two branches agree; the first branch
states the common case directly.) -/
def npBinop (da : α) (db : β) (f : α → β → γ) (a : Grid α) (b : Grid β) :
    Except NpError (Grid γ) :=
  if shapeOf a = shapeOf b then
    .ok (List.zipWith (List.zipWith f) a b)
  else
    match bcompat (bshape a) (bshape b) with
    | some (m, n) =>
        .ok (List.zipWith (List.zipWith f) (expand da m n a) (expand db m n b))
    | none => .error .shapeMismatch

/-- `np.logical_or` on boolean grids. -/
def npLogicalOr (a b : Grid Bool) : Except NpError (Grid Bool) :=
  npBinop false false or a b

/-- `reflow = np.less(refl_grid, 20)` — line 104. -/
def reflow (refl : Grid ℚ) : Grid Bool :=
  gmap (fun x => decide (x < 20)) refl

/-- `zdrhigh = np.greater(np.abs(zdr_grid), 2.3)` — line 105.  The
threshold 2.3 is written `mkRat 23 10` (the same rational, in a form the
kernel evaluates). -/
def zdrhigh (zdr : Grid ℚ) : Grid Bool :=
  gmap (fun x => decide (|x| > mkRat 23 10)) zdr

/-- `rhohvlow = np.less(rhohv_grid, 0.95)` — line 106.  The threshold
0.95 is written `mkRat 95 100` (the same rational, in a form the kernel
evaluates). -/
def rhohvlow (rhohv : Grid ℚ) : Grid Bool :=
  gmap (fun x => decide (x < mkRat 95 100)) rhohv

/-- The operation computeMask of the spec: lines 104-107 of the script,
`notweather = np.logical_or(reflow, np.logical_or(zdrhigh, rhohvlow))`. -/
def computeMask (refl zdr rhohv : Grid ℚ) : Except NpError (Grid Bool) :=
  (npLogicalOr (zdrhigh zdr) (rhohvlow rhohv)).bind fun inner =>
    npLogicalOr (reflow refl) inner

/-- The MaskedGrid of the spec: a numpy masked array, keeping the original
data alongside the boolean mask. -/
structure MaskedGrid where
  data : Grid ℚ
  mask : Grid Bool
deriving DecidableEq

/-- `ma.masked_where(condition, a)`: requires the shape of the condition to
equal the shape of the data (IndexError otherwise) and returns the masked
array of `a` masked where the condition is true. -/
def masked_where (cond : Grid Bool) (a : Grid ℚ) : Except NpError MaskedGrid :=
  if shapeOf cond = shapeOf a then .ok ⟨a, cond⟩ else .error .shapeMismatch

/-- The operation applyMask of the spec: line 110 of the script,
`qcrefl_grid = ma.masked_where(notweather, refl_grid)`. -/
def applyMask (refl : Grid ℚ) (mask : Grid Bool) : Except NpError MaskedGrid :=
  masked_where mask refl

/-- Reading a cell of a masked array: a masked cell carries no numeric
value (numpy returns the `masked` sentinel, and the cell is skipped by
min/max/mean and rendered as background); an unmasked cell carries its
datum. -/
def MaskedGrid.cell (m : MaskedGrid) (i j : Nat) : Option ℚ :=
  if cellD m.mask true i j then none else some (cellD m.data 0 i j)

/-! ### Shape lemmas -/

theorem length_shapeOf (g : Grid α) : (shapeOf g).length = g.length := by
  simp [shapeOf]

theorem shapeOf_gmap (f : α → β) (g : Grid α) : shapeOf (gmap f g) = shapeOf g := by
  simp [shapeOf, gmap, List.map_map, Function.comp]

theorem bshape_gmap (f : α → β) (g : Grid α) : bshape (gmap f g) = bshape g := by
  cases g <;> simp [bshape, gmap]

theorem shapeOf_zipWith (f : α → β → γ) (a : Grid α) (b : Grid β)
    (h : shapeOf a = shapeOf b) :
    shapeOf (List.zipWith (List.zipWith f) a b) = shapeOf a := by
  induction a generalizing b with
  | nil => simp [shapeOf]
  | cons x xs ih =>
    cases b with
    | nil => simp [shapeOf] at h
    | cons y ys =>
      simp only [shapeOf, List.map_cons, List.cons.injEq] at h
      simp only [List.zipWith_cons_cons, shapeOf, List.map_cons, List.cons.injEq]
      refine ⟨by simp [List.length_zipWith, h.1], ?_⟩
      simpa [shapeOf] using ih ys (by simpa [shapeOf] using h.2)

/-- Two grids of equal shape have equally long rows at every index. -/
theorem row_len {a : Grid α} {b : Grid β} (h : shapeOf a = shapeOf b)
    (i : Nat) (hi : i < b.length) :
    i < a.length ∧ (a.getD i []).length = (b.getD i []).length := by
  have hlen : a.length = b.length := by
    simpa [shapeOf] using congrArg List.length h
  have hia : i < a.length := by omega
  refine ⟨hia, ?_⟩
  have hga : (shapeOf a).getD i 0 = (a.getD i []).length := by
    simp only [shapeOf]
    rw [List.getD_eq_getElem _ _ (by simpa using hia), List.getElem_map,
      List.getD_eq_getElem _ _ hia]
  have hgb : (shapeOf b).getD i 0 = (b.getD i []).length := by
    simp only [shapeOf]
    rw [List.getD_eq_getElem _ _ (by simpa using hi), List.getElem_map,
      List.getD_eq_getElem _ _ hi]
  rw [← hga, ← hgb, h]

/-! ### Cell lemmas -/

theorem cellD_congr_default {g : Grid α} (d d2 : α) (i j : Nat)
    (hj : j < (g.getD i []).length) :
    cellD g d i j = cellD g d2 i j := by
  simp only [cellD]
  rw [List.getD_eq_getElem _ _ hj, List.getD_eq_getElem _ _ hj]

theorem cellD_gmap (f : α → β) (g : Grid α) (d : β) (d0 : α) (i j : Nat)
    (hi : i < g.length) (hj : j < (g.getD i []).length) :
    cellD (gmap f g) d i j = f (cellD g d0 i j) := by
  have hj1 : j < g[i].length := by rwa [List.getD_eq_getElem g [] hi] at hj
  simp only [cellD, gmap]
  rw [List.getD_eq_getElem (List.map (List.map f) g) [] (by simpa using hi),
    List.getElem_map,
    List.getD_eq_getElem (List.map f g[i]) d (by simpa using hj1),
    List.getElem_map,
    List.getD_eq_getElem g [] hi, List.getD_eq_getElem g[i] d0 hj1]

theorem cellD_zipWith (f : α → β → γ) (a : Grid α) (b : Grid β) (d : γ)
    (da : α) (db : β) (i j : Nat) (hia : i < a.length) (hib : i < b.length)
    (hja : j < (a.getD i []).length) (hjb : j < (b.getD i []).length) :
    cellD (List.zipWith (List.zipWith f) a b) d i j
      = f (cellD a da i j) (cellD b db i j) := by
  have hja1 : j < a[i].length := by rwa [List.getD_eq_getElem a [] hia] at hja
  have hjb1 : j < b[i].length := by rwa [List.getD_eq_getElem b [] hib] at hjb
  have hi2 : i < (List.zipWith (List.zipWith f) a b).length := by
    rw [List.length_zipWith]; omega
  simp only [cellD]
  rw [List.getD_eq_getElem _ _ hi2, List.getElem_zipWith]
  have hj2 : j < (List.zipWith f a[i] b[i]).length := by
    rw [List.length_zipWith]; omega
  rw [List.getD_eq_getElem _ _ hj2, List.getElem_zipWith,
    List.getD_eq_getElem a [] hia, List.getD_eq_getElem b [] hib,
    List.getD_eq_getElem _ _ hja1, List.getD_eq_getElem _ _ hjb1]

/-! ### Unfolding computeMask on equal shapes -/

theorem npBinop_of_shape_eq (da : α) (db : β) (f : α → β → γ)
    (a : Grid α) (b : Grid β) (h : shapeOf a = shapeOf b) :
    npBinop da db f a b = .ok (List.zipWith (List.zipWith f) a b) := by
  simp [npBinop, h]

theorem computeMask_eq_of_shape (refl zdr rhohv : Grid ℚ)
    (hz : shapeOf zdr = shapeOf refl) (hr : shapeOf rhohv = shapeOf refl) :
    computeMask refl zdr rhohv =
      .ok (List.zipWith (List.zipWith or) (reflow refl)
        (List.zipWith (List.zipWith or) (zdrhigh zdr) (rhohvlow rhohv))) := by
  have h1 : shapeOf (zdrhigh zdr) = shapeOf (rhohvlow rhohv) := by
    simp [zdrhigh, rhohvlow, shapeOf_gmap, hz, hr]
  have h2 : shapeOf (reflow refl)
      = shapeOf (List.zipWith (List.zipWith or) (zdrhigh zdr) (rhohvlow rhohv)) := by
    rw [shapeOf_zipWith _ _ _ h1]
    simp [reflow, zdrhigh, shapeOf_gmap, hz]
  simp only [computeMask, npLogicalOr, npBinop_of_shape_eq _ _ _ _ _ h1,
    npBinop_of_shape_eq _ _ _ _ _ h2, Except.bind]

/-- On equal-shape inputs `computeMask` succeeds, and the mask cell at
any in-range position is exactly the three-way OR of the threshold
tests at that position. -/
theorem computeMask_cell_formula (refl zdr rhohv : Grid ℚ)
    (hz : shapeOf zdr = shapeOf refl) (hr : shapeOf rhohv = shapeOf refl)
    (i j : Nat) (hi : i < refl.length) (hj : j < (refl.getD i []).length) :
    ∃ mask, computeMask refl zdr rhohv = .ok mask ∧
      cellD mask false i j =
        (decide (cellD refl 0 i j < 20) || decide (|cellD zdr 0 i j| > mkRat 23 10)
          || decide (cellD rhohv 0 i j < mkRat 95 100)) := by
  refine ⟨_, computeMask_eq_of_shape refl zdr rhohv hz hr, ?_⟩
  have hA : shapeOf (reflow refl) = shapeOf refl := shapeOf_gmap _ _
  have hB : shapeOf (zdrhigh zdr) = shapeOf refl := by rw [zdrhigh, shapeOf_gmap, hz]
  have hC : shapeOf (rhohvlow rhohv) = shapeOf refl := by rw [rhohvlow, shapeOf_gmap, hr]
  have hI : shapeOf (List.zipWith (List.zipWith or) (zdrhigh zdr) (rhohvlow rhohv))
      = shapeOf refl := by
    rw [shapeOf_zipWith _ _ _ (hB.trans hC.symm), hB]
  obtain ⟨hiA, hjA⟩ := row_len hA i hi
  obtain ⟨hiB, hjB⟩ := row_len hB i hi
  obtain ⟨hiC, hjC⟩ := row_len hC i hi
  obtain ⟨hiI, hjI⟩ := row_len hI i hi
  obtain ⟨hiz, hjz⟩ := row_len hz i hi
  obtain ⟨hir, hjr⟩ := row_len hr i hi
  rw [cellD_zipWith or _ _ false false false i j hiA hiI (by omega) (by omega),
    cellD_zipWith or _ _ false false false i j hiB hiC (by omega) (by omega),
    reflow, cellD_gmap _ refl false 0 i j hi hj,
    zdrhigh, cellD_gmap _ zdr false 0 i j hiz (by omega),
    rhohvlow, cellD_gmap _ rhohv false 0 i j hir (by omega), Bool.or_assoc]

/-! ### Broadcast-shape lemmas -/

theorem length_gmap (f : α → β) (g : Grid α) : (gmap f g).length = g.length := by
  simp [gmap]

theorem bshape_shapeOf (g : Grid α) :
    bshape g = ((shapeOf g).length, (shapeOf g).headD 0) := by
  cases g <;> simp [bshape, shapeOf]

theorem bshape_eq_of_shapeOf {a : Grid α} {b : Grid β}
    (h : shapeOf a = shapeOf b) : bshape a = bshape b := by
  rw [bshape_shapeOf, bshape_shapeOf, h]

theorem bdim_self (a : Nat) : bdim a a = some a := by
  simp [bdim]

theorem bcompat_self (s : Nat × Nat) : bcompat s s = some s := by
  cases s
  simp [bcompat, bdim_self]

theorem bdim_some {a b c : Nat} (h : bdim a b = some c) :
    (a = c ∨ a = 1) ∧ (b = c ∨ b = 1) := by
  unfold bdim at h
  split_ifs at h <;> simp_all

theorem bdim_zero {a b : Nat} (h : bdim a b = some 0) : a = 0 ∨ b = 0 := by
  unfold bdim at h
  split_ifs at h <;> simp_all

theorem bcompat_some {s t u : Nat × Nat} (h : bcompat s t = some u) :
    bdim s.1 t.1 = some u.1 ∧ bdim s.2 t.2 = some u.2 := by
  unfold bcompat at h
  rcases h1 : bdim s.1 t.1 with _ | m <;> rcases h2 : bdim s.2 t.2 with _ | n <;>
    rw [h1, h2] at h <;> simp_all
  exact ⟨by rw [← h], by rw [← h]⟩

/-- Whatever the input row, `expandRow` returns a row of length n. -/
theorem length_expandRow (d : α) (n : Nat) (row : List α) :
    (expandRow d n row).length = n := by
  unfold expandRow
  split_ifs with h1
  · exact h1
  · simp

/-- `expand` really produces an m × n grid (for a nonempty input, or an
input whose row count is already m). -/
theorem expand_shapeOf (d : α) (m n : Nat) (a : Grid α)
    (h : a.length = m ∨ a ≠ []) :
    shapeOf (expand d m n a) = List.replicate m n := by
  unfold expand
  split_ifs with h1
  · refine List.eq_replicate_iff.2 ⟨by simp [shapeOf, h1], ?_⟩
    intro b hb
    simp only [shapeOf, List.map_map, List.mem_map, Function.comp] at hb
    obtain ⟨row, hrow, rfl⟩ := hb
    exact length_expandRow d n row
  · have ha : a ≠ [] := by
      rcases h with h | h
      · exact absurd h h1
      · exact h
    rcases a with _ | ⟨r, t⟩
    · exact absurd rfl ha
    · simp only [List.map_cons, List.headD_cons, shapeOf, List.map_replicate]
      rw [length_expandRow]

/-! ### Unfolding computeMask on arbitrary shapes -/

theorem computeMask_unfold (refl zdr rhohv : Grid ℚ) :
    computeMask refl zdr rhohv =
      (npLogicalOr (zdrhigh zdr) (rhohvlow rhohv)).bind fun inner =>
        npLogicalOr (reflow refl) inner := rfl

theorem npLogicalOr_unfold (a b : Grid Bool) :
    npLogicalOr a b = npBinop false false or a b := rfl

theorem npBinop_of_shape_ne (da : α) (db : β) (f : α → β → γ)
    (a : Grid α) (b : Grid β) (h : ¬ shapeOf a = shapeOf b) :
    npBinop da db f a b =
      match bcompat (bshape a) (bshape b) with
      | some (m, n) =>
          .ok (List.zipWith (List.zipWith f) (expand da m n a) (expand db m n b))
      | none => .error .shapeMismatch := by
  unfold npBinop
  rw [if_neg h]

/-- The literal 2.3 of line 105, in the two spellings used below. -/
theorem mkRat_23_10 : (mkRat 23 10 : ℚ) = 23/10 := by
  norm_num [Rat.mkRat_eq_div]

/-- The literal 0.95 of line 106, in the two spellings used below. -/
theorem mkRat_95_100 : (mkRat 95 100 : ℚ) = 95/100 := by
  norm_num [Rat.mkRat_eq_div]

/-! ### Claims -/

/-- C1: for same-shape input grids, computeMask succeeds and its mask
cell at any in-range position (i, j) is true if and only if the
reflectivity there is below 20, or the absolute differential
reflectivity exceeds 2.3, or the cross-correlation ratio is below 0.95;
in particular a cell failing none of the three tests is false. -/
theorem computeMask_cell_iff (refl zdr rhohv : Grid ℚ)
    (hz : shapeOf zdr = shapeOf refl) (hr : shapeOf rhohv = shapeOf refl)
    (i j : Nat) (hi : i < refl.length) (hj : j < (refl.getD i []).length) :
    ∃ mask, computeMask refl zdr rhohv = .ok mask ∧
      (cellD mask false i j = true ↔
        (cellD refl 0 i j < 20 ∨ |cellD zdr 0 i j| > 23/10
          ∨ cellD rhohv 0 i j < 95/100)) := by
  obtain ⟨mask, hok, hcell⟩ := computeMask_cell_formula refl zdr rhohv hz hr i j hi hj
  refine ⟨mask, hok, ?_⟩
  rw [hcell, ← mkRat_23_10, ← mkRat_95_100]
  simp [Bool.or_eq_true, decide_eq_true_eq, or_assoc]

/-- Witness for C1: the spec scenario reflectivity [[25, 15]],
differential reflectivity [[1, 1]], cross-correlation [[0.98, 0.98]],
at cell (0, 1). -/
theorem computeMask_cell_iff_witness :
    ∃ mask, computeMask [[25, 15]] [[1, 1]] [[mkRat 98 100, mkRat 98 100]]
        = .ok mask ∧
      (cellD mask false 0 1 = true ↔
        (cellD [[(25:ℚ), 15]] 0 0 1 < 20 ∨ |cellD [[(1:ℚ), 1]] 0 0 1| > 23/10
          ∨ cellD [[mkRat 98 100, mkRat 98 100]] 0 0 1 < 95/100)) :=
  computeMask_cell_iff [[25, 15]] [[1, 1]] [[mkRat 98 100, mkRat 98 100]]
    (by decide) (by decide) 0 1 (by decide) (by decide)

/-- C2 counterexample: with reflectivity of shape 1×2 and the other two
grids of shape 2×2 the shapes are not identical, yet computeMask raises
nothing and silently broadcasts the reflectivity row, returning a 2×2
mask (numpy broadcasting treats a dimension of size 1 as compatible). -/
theorem computeMask_broadcast_counterexample :
    ¬ shapeOf ([[25, 25]] : Grid ℚ) = shapeOf ([[1, 1], [1, 1]] : Grid ℚ) ∧
    computeMask [[25, 25]] [[1, 1], [1, 1]]
      [[mkRat 98 100, mkRat 98 100], [mkRat 98 100, mkRat 98 100]]
      = .ok [[false, false], [false, false]] :=
  ⟨by decide, rfl⟩

/-- C2 (amended): applyMask fails with ShapeMismatch exactly when grid
and mask differ in shape; computeMask fails with ShapeMismatch exactly
when the chained numpy broadcast of the input shapes is undefined —
the shapes of the differential-reflectivity and cross-correlation
grids are not broadcast-compatible, or their broadcast shape is not
broadcast-compatible with the reflectivity shape (this covers the 2×3
versus 2×4 spec scenario, while mismatched but broadcast-compatible
shapes are silently broadcast); and under equal shapes computeMask
raises nothing. -/
theorem shape_error_behavior (refl zdr rhohv g : Grid ℚ) (mask : Grid Bool) :
    (applyMask g mask = .error .shapeMismatch ↔ ¬ shapeOf mask = shapeOf g) ∧
    (computeMask refl zdr rhohv = .error .shapeMismatch ↔
      ((bcompat (bshape zdr) (bshape rhohv)).bind fun s =>
        bcompat (bshape refl) s) = none) ∧
    (shapeOf zdr = shapeOf refl → shapeOf rhohv = shapeOf refl →
      ∃ m, computeMask refl zdr rhohv = .ok m) := by
  have happly : applyMask g mask = .error .shapeMismatch
      ↔ ¬ shapeOf mask = shapeOf g := by
    by_cases hc : shapeOf mask = shapeOf g <;> simp [applyMask, masked_where, hc]
  have hbz : bshape (zdrhigh zdr) = bshape zdr := bshape_gmap _ _
  have hbr : bshape (rhohvlow rhohv) = bshape rhohv := bshape_gmap _ _
  have hbf : bshape (reflow refl) = bshape refl := bshape_gmap _ _
  refine ⟨happly, ?_, fun hz hr => ⟨_, computeMask_eq_of_shape refl zdr rhohv hz hr⟩⟩
  by_cases hfast1 : shapeOf (zdrhigh zdr) = shapeOf (rhohvlow rhohv)
  · -- the two polarimetric grids have identical shape
    have hbzr : bshape zdr = bshape rhohv := by
      rw [← hbz, ← hbr, bshape_eq_of_shapeOf hfast1]
    have hchain : bcompat (bshape zdr) (bshape rhohv) = some (bshape zdr) := by
      rw [← hbzr, bcompat_self]
    have hinner : npLogicalOr (zdrhigh zdr) (rhohvlow rhohv)
        = .ok (List.zipWith (List.zipWith or) (zdrhigh zdr) (rhohvlow rhohv)) :=
      npBinop_of_shape_eq _ _ _ _ _ hfast1
    have hbI : bshape (List.zipWith (List.zipWith or) (zdrhigh zdr) (rhohvlow rhohv))
        = bshape zdr :=
      (bshape_eq_of_shapeOf (shapeOf_zipWith _ _ _ hfast1)).trans hbz
    by_cases hfast2 : shapeOf (reflow refl)
        = shapeOf (List.zipWith (List.zipWith or) (zdrhigh zdr) (rhohvlow rhohv))
    · have hbfz : bshape refl = bshape zdr := by
        rw [← hbf, ← hbI, bshape_eq_of_shapeOf hfast2]
      rw [computeMask_unfold, hinner]
      simp [Except.bind, npLogicalOr_unfold, npBinop_of_shape_eq _ _ _ _ _ hfast2,
        hchain, Option.bind, hbfz, bcompat_self]
    · rcases hC : bcompat (bshape refl) (bshape zdr) with _ | p
      · rw [computeMask_unfold, hinner]
        simp only [Except.bind]
        rw [npLogicalOr_unfold, npBinop_of_shape_ne _ _ _ _ _ hfast2, hbf, hbI, hC]
        simp [hchain, Option.bind, hC]
      · rw [computeMask_unfold, hinner]
        simp only [Except.bind]
        rw [npLogicalOr_unfold, npBinop_of_shape_ne _ _ _ _ _ hfast2, hbf, hbI, hC]
        simp [hchain, Option.bind, hC]
  · rcases hC1 : bcompat (bshape zdr) (bshape rhohv) with _ | ⟨m, n⟩
    · -- the two polarimetric grids are not broadcast-compatible: raise
      rw [computeMask_unfold,
        npLogicalOr_unfold, npBinop_of_shape_ne _ _ _ _ _ hfast1, hbz, hbr, hC1]
      simp [Except.bind, hC1, Option.bind]
    · -- they broadcast to an m × n intermediate mask
      have hbd1 : bdim zdr.length rhohv.length = some m := by
        simpa [bshape] using (bcompat_some hC1).1
      have hbd2 : bdim (zdr.headD []).length (rhohv.headD []).length = some n := by
        simpa [bshape] using (bcompat_some hC1).2
      have h0 : m = 0 → n = 0 := by
        intro hm0
        subst hm0
        rcases bdim_zero hbd1 with h | h
        · have hz0 : zdr = [] := List.length_eq_zero.1 h
          rcases (bdim_some hbd2).1 with h2 | h2 <;> rw [hz0] at h2 <;>
            simpa using h2.symm
        · have hr0 : rhohv = [] := List.length_eq_zero.1 h
          rcases (bdim_some hbd2).2 with h2 | h2 <;> rw [hr0] at h2 <;>
            simpa using h2.symm
      have hlz : (zdrhigh zdr).length = zdr.length := length_gmap _ _
      have hlr : (rhohvlow rhohv).length = rhohv.length := length_gmap _ _
      have hmz : (zdrhigh zdr).length = m ∨ zdrhigh zdr ≠ [] := by
        rcases (bdim_some hbd1).1 with h | h
        · exact Or.inl (hlz.trans h)
        · refine Or.inr fun hnil => ?_
          have h0len : (zdrhigh zdr).length = 0 := by rw [hnil]; rfl
          rw [hlz, h] at h0len
          exact absurd h0len one_ne_zero
      have hmr : (rhohvlow rhohv).length = m ∨ rhohvlow rhohv ≠ [] := by
        rcases (bdim_some hbd1).2 with h | h
        · exact Or.inl (hlr.trans h)
        · refine Or.inr fun hnil => ?_
          have h0len : (rhohvlow rhohv).length = 0 := by rw [hnil]; rfl
          rw [hlr, h] at h0len
          exact absurd h0len one_ne_zero
      have hsz2 : shapeOf (expand false m n (zdrhigh zdr)) = List.replicate m n :=
        expand_shapeOf _ _ _ _ hmz
      have hsr2 : shapeOf (expand false m n (rhohvlow rhohv)) = List.replicate m n :=
        expand_shapeOf _ _ _ _ hmr
      have hsI2 : shapeOf (List.zipWith (List.zipWith or)
          (expand false m n (zdrhigh zdr)) (expand false m n (rhohvlow rhohv)))
          = List.replicate m n := by
        rw [shapeOf_zipWith _ _ _ (hsz2.trans hsr2.symm), hsz2]
      have hbI2 : bshape (List.zipWith (List.zipWith or)
          (expand false m n (zdrhigh zdr)) (expand false m n (rhohvlow rhohv)))
          = (m, n) := by
        rw [bshape_shapeOf, hsI2]
        cases m with
        | zero => simp [h0 rfl]
        | succ k => simp [List.replicate_succ]
      have hinner : npLogicalOr (zdrhigh zdr) (rhohvlow rhohv)
          = .ok (List.zipWith (List.zipWith or)
              (expand false m n (zdrhigh zdr)) (expand false m n (rhohvlow rhohv))) := by
        rw [npLogicalOr_unfold, npBinop_of_shape_ne _ _ _ _ _ hfast1, hbz, hbr, hC1]
      by_cases hfast2 : shapeOf (reflow refl)
          = shapeOf (List.zipWith (List.zipWith or)
              (expand false m n (zdrhigh zdr)) (expand false m n (rhohvlow rhohv)))
      · have hbfI : bshape refl = (m, n) := by
          rw [← hbf, bshape_eq_of_shapeOf hfast2, hbI2]
        rw [computeMask_unfold, hinner]
        simp [Except.bind, npLogicalOr_unfold, npBinop_of_shape_eq _ _ _ _ _ hfast2,
          hC1, Option.bind, hbfI, bcompat_self]
      · rcases hC2 : bcompat (bshape refl) (m, n) with _ | p
        · rw [computeMask_unfold, hinner]
          simp only [Except.bind]
          rw [npLogicalOr_unfold, npBinop_of_shape_ne _ _ _ _ _ hfast2, hbf, hbI2, hC2]
          simp [hC1, Option.bind, hC2]
        · rw [computeMask_unfold, hinner]
          simp only [Except.bind]
          rw [npLogicalOr_unfold, npBinop_of_shape_ne _ _ _ _ _ hfast2, hbf, hbI2, hC2]
          simp [hC1, Option.bind, hC2]

/-- Witness for C2 (amended): the spec scenario, reflectivity 2×3
against differential reflectivity and cross-correlation both of shape
2×4; the polarimetric pair broadcasts to 2×4, which is incompatible
with 2×3, so computeMask fails with ShapeMismatch. -/
theorem shape_error_behavior_witness :
    computeMask ([[25, 25, 25], [25, 25, 25]] : Grid ℚ)
      [[1, 1, 1, 1], [1, 1, 1, 1]] [[1, 1, 1, 1], [1, 1, 1, 1]]
      = .error .shapeMismatch :=
  ((shape_error_behavior [[25, 25, 25], [25, 25, 25]] [[1, 1, 1, 1], [1, 1, 1, 1]]
    [[1, 1, 1, 1], [1, 1, 1, 1]] [] []).2.1).2 (by decide)

/-- C3: applyMask on a reflectivity grid and a same-shape mask succeeds,
and in the result every in-range cell flagged true carries no numeric
value while every cell flagged false holds exactly the original
reflectivity value. -/
theorem applyMask_cell_semantics (refl : Grid ℚ) (mask : Grid Bool)
    (hm : shapeOf mask = shapeOf refl) (i j : Nat)
    (hi : i < refl.length) (hj : j < (refl.getD i []).length) :
    ∃ mg, applyMask refl mask = .ok mg ∧
      (cellD mask false i j = true → mg.cell i j = none) ∧
      (cellD mask false i j = false → mg.cell i j = some (cellD refl 0 i j)) := by
  obtain ⟨him, hjm⟩ := row_len hm i hi
  have hdef : cellD mask true i j = cellD mask false i j :=
    cellD_congr_default true false i j (by omega)
  refine ⟨⟨refl, mask⟩, by simp [applyMask, masked_where, hm], ?_, ?_⟩
  · intro h
    simp [MaskedGrid.cell, hdef, h]
  · intro h
    simp [MaskedGrid.cell, hdef, h]

/-- Witness for C3: the spec scenario, mask [[false, true]] on
reflectivity [[25, 15]], at cells (0, 1) and (0, 0). -/
theorem applyMask_cell_semantics_witness :
    ∃ mg, applyMask [[25, 15]] [[false, true]] = .ok mg ∧
      (cellD [[false, true]] false 0 1 = true → mg.cell 0 1 = none) ∧
      (cellD [[false, true]] false 0 1 = false →
        mg.cell 0 1 = some (cellD [[(25:ℚ), 15]] 0 0 1)) :=
  applyMask_cell_semantics [[25, 15]] [[false, true]] (by decide) 0 1
    (by decide) (by decide)

/-- C4: each of the three threshold tests is individually sufficient:
whenever a cell satisfies any one of them, the computed mask is true
there, whatever the other two inputs hold. -/
theorem computeMask_threshold_sufficient (refl zdr rhohv : Grid ℚ)
    (hz : shapeOf zdr = shapeOf refl) (hr : shapeOf rhohv = shapeOf refl)
    (i j : Nat) (hi : i < refl.length) (hj : j < (refl.getD i []).length)
    (hfail : cellD refl 0 i j < 20 ∨ |cellD zdr 0 i j| > 23/10
      ∨ cellD rhohv 0 i j < 95/100) :
    ∃ mask, computeMask refl zdr rhohv = .ok mask ∧ cellD mask false i j = true := by
  obtain ⟨mask, hok, hcell⟩ := computeMask_cell_formula refl zdr rhohv hz hr i j hi hj
  refine ⟨mask, hok, ?_⟩
  rw [hcell]
  rw [← mkRat_23_10, ← mkRat_95_100] at hfail
  simpa [Bool.or_eq_true, decide_eq_true_eq, or_assoc] using hfail

/-- Witness for C4: cell (0, 1) of the spec scenario fails the
reflectivity test (15 < 20), so the mask is true there. -/
theorem computeMask_threshold_sufficient_witness :
    ∃ mask, computeMask [[25, 15]] [[1, 1]] [[mkRat 98 100, mkRat 98 100]]
        = .ok mask ∧ cellD mask false 0 1 = true :=
  computeMask_threshold_sufficient [[25, 15]] [[1, 1]]
    [[mkRat 98 100, mkRat 98 100]] (by decide) (by decide) 0 1
    (by decide) (by decide) (Or.inl (by decide))

/-- C5: on equal-shape inputs, the mask computed by computeMask and
both components of the MaskedGrid returned by applyMask have exactly
the shape of the input reflectivity grid. -/
theorem computeMask_applyMask_shape (refl zdr rhohv : Grid ℚ) (mask : Grid Bool)
    (hz : shapeOf zdr = shapeOf refl) (hr : shapeOf rhohv = shapeOf refl)
    (hm : shapeOf mask = shapeOf refl) :
    (∃ m, computeMask refl zdr rhohv = .ok m ∧ shapeOf m = shapeOf refl) ∧
    (∃ mg, applyMask refl mask = .ok mg ∧ shapeOf mg.data = shapeOf refl
      ∧ shapeOf mg.mask = shapeOf refl) := by
  constructor
  · refine ⟨_, computeMask_eq_of_shape refl zdr rhohv hz hr, ?_⟩
    have hB : shapeOf (zdrhigh zdr) = shapeOf refl := by
      rw [zdrhigh, shapeOf_gmap, hz]
    have hC : shapeOf (rhohvlow rhohv) = shapeOf refl := by
      rw [rhohvlow, shapeOf_gmap, hr]
    have hI : shapeOf (List.zipWith (List.zipWith or) (zdrhigh zdr) (rhohvlow rhohv))
        = shapeOf refl := by
      rw [shapeOf_zipWith _ _ _ (hB.trans hC.symm), hB]
    have hA : shapeOf (reflow refl) = shapeOf refl := shapeOf_gmap _ _
    rw [shapeOf_zipWith _ _ _ (hA.trans hI.symm), hA]
  · exact ⟨⟨refl, mask⟩, by simp [applyMask, masked_where, hm], rfl, hm⟩

/-- Witness for C5: shapes are preserved on the spec scenario. -/
theorem computeMask_applyMask_shape_witness :
    (∃ m, computeMask [[25, 15]] [[1, 1]] [[mkRat 98 100, mkRat 98 100]]
        = .ok m ∧ shapeOf m = shapeOf ([[25, 15]] : Grid ℚ)) ∧
    (∃ mg, applyMask [[25, 15]] [[false, true]] = .ok mg ∧
      shapeOf mg.data = shapeOf ([[25, 15]] : Grid ℚ) ∧
      shapeOf mg.mask = shapeOf ([[25, 15]] : Grid ℚ)) :=
  computeMask_applyMask_shape [[25, 15]] [[1, 1]] [[mkRat 98 100, mkRat 98 100]]
    [[false, true]] (by decide) (by decide) (by decide)

/-- C7: computeMask is deterministic: two invocations on equal input
grids return equal masks. -/
theorem computeMask_deterministic (r1 z1 c1 r2 z2 c2 : Grid ℚ)
    (hr : r1 = r2) (hz : z1 = z2) (hc : c1 = c2) :
    computeMask r1 z1 c1 = computeMask r2 z2 c2 := by
  rw [hr, hz, hc]

/-- Witness for C7: two invocations on the spec scenario agree. -/
theorem computeMask_deterministic_witness :
    computeMask [[25, 15]] [[1, 1]] [[mkRat 98 100, mkRat 98 100]]
      = computeMask [[25, 15]] [[1, 1]] [[mkRat 98 100, mkRat 98 100]] :=
  computeMask_deterministic [[25, 15]] [[1, 1]] [[mkRat 98 100, mkRat 98 100]]
    [[25, 15]] [[1, 1]] [[mkRat 98 100, mkRat 98 100]] rfl rfl rfl

/-- C8: the two concrete spec scenarios: reflectivity [[25, 15]] with
unit differential reflectivity and 0.98 cross-correlation gives
[[false, true]], and reflectivity [[25, 25]] with differential
reflectivity [[1, 3]] gives [[false, true]]. -/
theorem computeMask_concrete_scenarios :
    computeMask [[25, 15]] [[1, 1]] [[mkRat 98 100, mkRat 98 100]]
      = .ok [[false, true]] ∧
    computeMask [[25, 25]] [[1, 3]] [[mkRat 98 100, mkRat 98 100]]
      = .ok [[false, true]] :=
  ⟨rfl, rfl⟩

/-- C9: computeMask is cell-local: two equal-shape runs whose inputs
agree at position (i, j) produce masks that agree at (i, j), however
the other positions differ. -/
theorem computeMask_cell_local (r1 z1 c1 r2 z2 c2 : Grid ℚ)
    (h1z : shapeOf z1 = shapeOf r1) (h1c : shapeOf c1 = shapeOf r1)
    (h2z : shapeOf z2 = shapeOf r2) (h2c : shapeOf c2 = shapeOf r2)
    (i j : Nat) (hi1 : i < r1.length) (hj1 : j < (r1.getD i []).length)
    (hi2 : i < r2.length) (hj2 : j < (r2.getD i []).length)
    (har : cellD r1 0 i j = cellD r2 0 i j)
    (haz : cellD z1 0 i j = cellD z2 0 i j)
    (hac : cellD c1 0 i j = cellD c2 0 i j) :
    ∃ m1 m2, computeMask r1 z1 c1 = .ok m1 ∧ computeMask r2 z2 c2 = .ok m2 ∧
      cellD m1 false i j = cellD m2 false i j := by
  obtain ⟨m1, hok1, hc1⟩ := computeMask_cell_formula r1 z1 c1 h1z h1c i j hi1 hj1
  obtain ⟨m2, hok2, hc2⟩ := computeMask_cell_formula r2 z2 c2 h2z h2c i j hi2 hj2
  refine ⟨m1, m2, hok1, hok2, ?_⟩
  rw [hc1, hc2, har, haz, hac]

/-- Witness for C9: two runs agreeing only at cell (0, 0). -/
theorem computeMask_cell_local_witness :
    ∃ m1 m2, computeMask [[25, 15]] [[1, 1]] [[mkRat 98 100, mkRat 98 100]]
        = .ok m1 ∧
      computeMask [[25, 99]] [[1, 5]] [[mkRat 98 100, mkRat 1 2]] = .ok m2 ∧
      cellD m1 false 0 0 = cellD m2 false 0 0 :=
  computeMask_cell_local [[25, 15]] [[1, 1]] [[mkRat 98 100, mkRat 98 100]]
    [[25, 99]] [[1, 5]] [[mkRat 98 100, mkRat 1 2]]
    (by decide) (by decide) (by decide) (by decide) 0 0
    (by decide) (by decide) (by decide) (by decide)
    (by decide) (by decide) (by decide)

/-- C10: applyMask flags rather than erases: the MaskedGrid it returns
holds the input reflectivity grid unchanged as its underlying data, so
every cell datum, masked cells included, equals the corresponding input
cell and dropping the mask recovers the original grid exactly. -/
theorem applyMask_keeps_data (refl : Grid ℚ) (mask : Grid Bool)
    (hm : shapeOf mask = shapeOf refl) :
    ∃ mg, applyMask refl mask = .ok mg ∧ mg.data = refl ∧
      ∀ i j, cellD mg.data 0 i j = cellD refl 0 i j :=
  ⟨⟨refl, mask⟩, by simp [applyMask, masked_where, hm], rfl, fun _ _ => rfl⟩

/-- Witness for C10: on the spec scenario the underlying data of the
masked grid is the input reflectivity grid. -/
theorem applyMask_keeps_data_witness :
    ∃ mg, applyMask [[25, 15]] [[false, true]] = .ok mg ∧ mg.data = [[25, 15]] ∧
      ∀ i j, cellD mg.data 0 i j = cellD ([[25, 15]] : Grid ℚ) 0 i j :=
  applyMask_keeps_data [[25, 15]] [[false, true]] (by decide)

end Nexrad
